import Mathlib

/-!
A verification development for the in-process agent message bus of this
repository.  The Python sources are shallowly embedded as executable Lean
definitions:

* `Agnext` models `src/python/src/agnext/application/_single_threaded_agent_runtime.py`
  (envelope queue, outstanding-work counter, subscription registry,
  send / publish / response processing, intervention pipeline).
* `RoutedComponents` models the `message_handler` decorator of
  `src/python/packages/autogen-core/src/autogen_core/components/_routed_agent.py`.
* `AutogenCore` models `BaseAgent` of
  `src/python/packages/autogen-core/src/autogen_core/_base_agent.py`
  (RPC-over-publish emulation).

Python `asyncio` coroutines become explicit state-passing functions; the
effects of a spawned task are modelled by running the task body to
completion (the counter and future effects are identical).  `asyncio`
futures are write-once slots; a second `set_result`/`set_exception`
raises `InvalidStateError` in the setter and leaves the slot unchanged.
-/

namespace Agnext

/-- `AgentId` from `agnext.core`: a (type, key) pair with structural equality. -/
structure AgentId where
  type : String
  key : String
deriving DecidableEq, Repr

/-- `TopicId` from `agnext.core`: a (type, source) pair with structural equality. -/
structure TopicId where
  type : String
  source : String
deriving DecidableEq, Repr

/-- Python exception values that the runtime code can raise or store in futures. -/
inductive PyErr where
  /-- `ValueError(msg)` -/
  | valueError (msg : String)
  /-- `LookupError(msg)` (raised by `_get_agent` for an unregistered type) -/
  | lookupError (msg : String)
  /-- a plain `Exception(msg)` (e.g. `Exception("Recipient not found")`) -/
  | exceptionMsg (msg : String)
  /-- `MessageDroppedException()` from `agnext.core.exceptions` -/
  | messageDropped
  /-- `asyncio.CancelledError` -/
  | cancelledError
  /-- `asyncio.InvalidStateError` (future already resolved) -/
  | invalidStateError
  /-- an arbitrary exception escaping a handler body, identified by a code -/
  | handlerError (code : Nat)
deriving DecidableEq, Repr

/-- A `Subscription` (protocol in `agnext.core._subscription`): a stable id,
a predicate `is_match` on topics and a mapping `map_to_agent` to an agent id. -/
structure Subscription where
  id : String
  is_match : TopicId → Bool
  map_to_agent : TopicId → AgentId

/-- State of an `asyncio.Future`: unresolved, resolved with a value,
rejected with an exception, or cancelled. -/
inductive FutureState (μ : Type) where
  | unresolved
  | result (v : μ)
  | exception (e : PyErr)
  | cancelled
deriving DecidableEq, Repr

/-- The three envelope kinds moved through the runtime's queue.  A future is
referred to by a numeric id into the runtime's future store (futures are
shared by reference between `send_message` and the envelopes). -/
inductive Envelope (μ : Type) where
  /-- `SendMessageEnvelope(message, sender, recipient, future, cancellation_token)` -/
  | send (message : μ) (sender : Option AgentId) (recipient : AgentId) (future : Nat)
  /-- `PublishMessageEnvelope(message, cancellation_token, sender, topic_id)` -/
  | publish (message : μ) (sender : Option AgentId) (topic_id : TopicId)
  /-- `ResponseMessageEnvelope(message, future, sender, recipient)` -/
  | response (message : μ) (future : Nat) (sender : AgentId) (recipient : Option AgentId)
deriving DecidableEq, Repr

/-- The mutable state of `SingleThreadedAgentRuntime`.  `agent_factory_types`
holds the keys of `_agent_factories` (`_known_agent_names`); the behaviour of
instantiated agents is passed separately as a handler function, since
`_get_agent` lazily instantiates any registered type.  `future_writes` counts
successful future resolutions (each `set_result`/`set_exception` that found
the slot unresolved), so that exactly-once-outcome properties can be stated. -/
structure RuntimeState (μ : Type) where
  message_queue : List (Envelope μ)
  agent_factory_types : List String
  outstanding_tasks : Int
  subscriptions : List Subscription
  seen_topics : List TopicId
  subscribed_recipients : List (TopicId × List AgentId)
  futures : List (Nat × FutureState μ)
  next_future_id : Nat
  future_writes : Nat

/-- Look up a future's state in a store. -/
def storeGet (futures : List (Nat × FutureState μ)) (fid : Nat) : Option (FutureState μ) :=
  (futures.find? (fun p => p.1 == fid)).map (·.2)

/-- Look up a future's state in the runtime's store. -/
def futureOf (st : RuntimeState μ) (fid : Nat) : Option (FutureState μ) :=
  storeGet st.futures fid

/-- Replace the state of future `fid` in a store. -/
def storeSet (futures : List (Nat × FutureState μ)) (fid : Nat) (s : FutureState μ) :
    List (Nat × FutureState μ) :=
  futures.map (fun p => if p.1 == fid then (fid, s) else p)

/-- `future.set_result(v)`: write-once.  If the future is already done the
setter raises `InvalidStateError` and the store is unchanged. -/
def set_future_result (st : RuntimeState μ) (fid : Nat) (v : μ) : RuntimeState μ :=
  match futureOf st fid with
  | some .unresolved =>
      { st with futures := storeSet st.futures fid (.result v),
                future_writes := st.future_writes + 1 }
  | _ => st

/-- `future.set_exception(e)`: write-once, as for `set_future_result`. -/
def set_future_exception (st : RuntimeState μ) (fid : Nat) (e : PyErr) : RuntimeState μ :=
  match futureOf st fid with
  | some .unresolved =>
      { st with futures := storeSet st.futures fid (.exception e),
                future_writes := st.future_writes + 1 }
  | _ => st

/-! ## Subscription registry -/

/-- Recipients memoized for a topic; the Python `defaultdict(list)` yields `[]`
for an absent key. -/
def recipientsOf (st : RuntimeState μ) (topic : TopicId) : List AgentId :=
  ((st.subscribed_recipients.find? (fun p => p.1 == topic)).map (·.2)).getD []

/-- Append agent ids to the `defaultdict` entry of `topic`. -/
def appendRecipients (recs : List (TopicId × List AgentId)) (topic : TopicId)
    (agents : List AgentId) : List (TopicId × List AgentId) :=
  if (recs.find? (fun p => p.1 == topic)).isSome then
    recs.map (fun p => if p.1 == topic then (p.1, p.2 ++ agents) else p)
  else
    recs ++ [(topic, agents)]

/-- `SingleThreadedAgentRuntime._build_for_new_topic`: returns unchanged if the
topic was already seen, otherwise records it as seen and appends
`map_to_agent(topic)` for every matching subscription. -/
def build_for_new_topic (st : RuntimeState μ) (topic : TopicId) : RuntimeState μ :=
  if topic ∈ st.seen_topics then st
  else
    { st with
      seen_topics := st.seen_topics ++ [topic]
      subscribed_recipients :=
        appendRecipients st.subscribed_recipients topic
          ((st.subscriptions.filter (fun s => s.is_match topic)).map
            (fun s => s.map_to_agent topic)) }

/-- `SingleThreadedAgentRuntime._rebuild_subscriptions`: clears the routing
cache and calls `_build_for_new_topic` for each topic of the argument.  The
call site passes `self._seen_topics` itself, which `_build_for_new_topic`
consults, so the aliasing of the source is preserved by evaluating the
argument list before folding. -/
def rebuild_subscriptions (st : RuntimeState μ) (topics : List TopicId) : RuntimeState μ :=
  topics.foldl build_for_new_topic { st with subscribed_recipients := [] }

/-- `SingleThreadedAgentRuntime.add_subscription`. -/
def add_subscription (st : RuntimeState μ) (subscription : Subscription) :
    Except PyErr (RuntimeState μ) :=
  if st.subscriptions.any (fun s => s.id == subscription.id) then
    .error (.valueError "Subscription already exists")
  else if st.seen_topics.length > 0 then
    .error (.valueError "Cannot add subscription after topics have been seen yet")
  else
    .ok { st with subscriptions := st.subscriptions ++ [subscription] }

/-- `SingleThreadedAgentRuntime.remove_subscription`: errors when the id is
absent, otherwise filters it out and calls
`self._rebuild_subscriptions(self._seen_topics)`. -/
def remove_subscription (st : RuntimeState μ) (id : String) :
    Except PyErr (RuntimeState μ) :=
  if ¬ st.subscriptions.any (fun s => s.id == id) then
    .error (.valueError "Subscription does not exist")
  else
    let st1 := { st with subscriptions := st.subscriptions.filter (fun s => s.id != id) }
    .ok (rebuild_subscriptions st1 st1.seen_topics)

/-! ## Runtime entry points -/

/-- `SingleThreadedAgentRuntime.send_message`, in statement order: a fresh
future is created; if the recipient's type is not registered its exception is
set to `Exception("Recipient not found")`; if a sender is supplied whose key
differs from the recipient's, `ValueError` is raised (the queue untouched);
otherwise the send envelope is appended and the caller awaits the future,
whose id is returned. -/
def send_message (st : RuntimeState μ) (message : μ) (recipient : AgentId)
    (sender : Option AgentId) : Except PyErr Nat × RuntimeState μ :=
  let fid := st.next_future_id
  let st := { st with futures := st.futures ++ [(fid, .unresolved)],
                      next_future_id := fid + 1 }
  let st :=
    if recipient.type ∈ st.agent_factory_types then st
    else set_future_exception st fid (.exceptionMsg "Recipient not found")
  match sender with
  | some s =>
      if s.key ≠ recipient.key then
        (.error (.valueError "Sender and recipient must be in the same namespace to communicate."), st)
      else
        (.ok fid,
          { st with message_queue :=
              st.message_queue ++ [.send message sender recipient fid] })
  | none =>
      (.ok fid,
        { st with message_queue :=
            st.message_queue ++ [.send message sender recipient fid] })

/-- `SingleThreadedAgentRuntime.publish_message`: appends a publish envelope. -/
def publish_message (st : RuntimeState μ) (message : μ) (topic_id : TopicId)
    (sender : Option AgentId) : RuntimeState μ :=
  { st with message_queue := st.message_queue ++ [.publish message sender topic_id] }

/-! ## Processing units

An agent's `on_message` behaviour is a function from agent id and message to
`Except PyErr μ` (`.error` is an exception escaping the handler body, which
`_process_send` catches as `BaseException`; `asyncio.CancelledError` also
arrives through that handler). -/

/-- The behaviour of all instantiable agents. -/
def Handlers (μ : Type) : Type := AgentId → μ → Except PyErr μ

/-- `SingleThreadedAgentRuntime._process_send`, run to completion.  On any
`BaseException` (handler fault, lookup failure, cancellation) it sets the
exception on the envelope's future and returns — without touching the
outstanding-work counter.  On success it enqueues the response envelope and
decrements the counter. -/
def process_send (handlers : Handlers μ) (st : RuntimeState μ)
    (message : μ) (sender : Option AgentId) (recipient : AgentId) (fid : Nat) :
    RuntimeState μ :=
  let outcome : Except PyErr μ :=
    if recipient.type ∈ st.agent_factory_types then handlers recipient message
    else .error (.lookupError ("Agent with name " ++ recipient.type ++ " not found."))
  match outcome with
  | .error e => set_future_exception st fid e
  | .ok response =>
      let st := { st with message_queue :=
          st.message_queue ++ [Envelope.response response fid recipient sender] }
      { st with outstanding_tasks := st.outstanding_tasks - 1 }

/-- Result classification of a publish fan-out, as seen at the scheduler. -/
inductive PublishResult (μ : Type) where
  /-- all gathered handlers returned -/
  | success
  /-- `asyncio.gather` raised `CancelledError`: silently return -/
  | silentAbort
  /-- `asyncio.gather` raised another exception: log and continue -/
  | loggedError (e : PyErr)
  /-- an exception escaped the dispatch loop itself (before `try`): the
  coroutine dies, the `finally` decrement never runs -/
  | raised (e : PyErr)
deriving DecidableEq

/-- The recipient loop of `_process_publish`: skips the sender, looks up the
sender agent (for logging) and the recipient agent, and collects each started
handler invocation with its eventual outcome.  A failing `_get_agent` raises
out of the loop before `asyncio.gather` runs, in which case none of the
collected coroutines is ever awaited. -/
def publishLoop (handlers : Handlers μ) (known : List String) (message : μ)
    (sender : Option AgentId) : List AgentId → Except PyErr (List (AgentId × Except PyErr μ))
  | [] => .ok []
  | agent_id :: rest =>
      if sender = some agent_id then
        publishLoop handlers known message sender rest
      else
        let senderLookup : Except PyErr Unit :=
          match sender with
          | some s =>
              if s.type ∈ known then .ok ()
              else .error (.lookupError ("Agent with name " ++ s.type ++ " not found."))
          | none => .ok ()
        match senderLookup with
        | .error e => .error e
        | .ok _ =>
            if agent_id.type ∈ known then
              match publishLoop handlers known message sender rest with
              | .error e => .error e
              | .ok tail => .ok ((agent_id, handlers agent_id message) :: tail)
            else
              .error (.lookupError ("Agent with name " ++ agent_id.type ++ " not found."))

/-- The first exception among the gathered handler outcomes (representing the
exception that `asyncio.gather` without `return_exceptions` surfaces). -/
def firstGatherError (outcomes : List (AgentId × Except PyErr μ)) : Option PyErr :=
  (outcomes.find? (fun p => match p.2 with | .error _ => true | .ok _ => false)).bind
    (fun p => match p.2 with | .error e => some e | .ok _ => none)

/-- `SingleThreadedAgentRuntime._process_publish`, run to completion: builds
the routing entry for a newly seen topic, runs the recipient loop, then
gathers all started handlers inside `try ... finally decrement`:
`CancelledError` is swallowed, other exceptions are logged; a loop-level
exception instead escapes the coroutine and skips the decrement.  The returned
list records the handler invocations actually awaited. -/
def process_publish (handlers : Handlers μ) (st : RuntimeState μ)
    (message : μ) (sender : Option AgentId) (topic_id : TopicId) :
    RuntimeState μ × PublishResult μ × List (AgentId × Except PyErr μ) :=
  let st := build_for_new_topic st topic_id
  let recipients := recipientsOf st topic_id
  match publishLoop handlers st.agent_factory_types message sender recipients with
  | .error e => (st, .raised e, [])
  | .ok outcomes =>
      let st := { st with outstanding_tasks := st.outstanding_tasks - 1 }
      match firstGatherError outcomes with
      | none => (st, .success, outcomes)
      | some e =>
          if e = .cancelledError then (st, .silentAbort, outcomes)
          else (st, .loggedError e, outcomes)

/-- `SingleThreadedAgentRuntime._process_response`, run to completion:
decrements the counter and resolves the envelope's future. -/
def process_response (st : RuntimeState μ) (message : μ) (fid : Nat) :
    RuntimeState μ :=
  let st := { st with outstanding_tasks := st.outstanding_tasks - 1 }
  set_future_result st fid message

/-! ## Intervention pipeline -/

/-- Result of an intervention hook: a (possibly modified) message, or the
`DropMessage` sentinel. -/
inductive InterventionOutcome (μ : Type) where
  | message (m : μ)
  | dropMessage

/-- An `InterventionHandler`: hooks for send, publish and response, each of
which may also raise. -/
structure InterventionHandler (μ : Type) where
  on_send : μ → Option AgentId → AgentId → Except PyErr (InterventionOutcome μ)
  on_publish : μ → Option AgentId → Except PyErr (InterventionOutcome μ)
  on_response : μ → AgentId → Option AgentId → Except PyErr (InterventionOutcome μ)

/-! ## The scheduler iteration -/

/-- One invocation of `SingleThreadedAgentRuntime.process_next`, with the
spawned unit of work run to completion.  The second component counts the
`asyncio.sleep(0)` yields executed during the invocation: the empty-queue
branch sleeps before returning, the three intervention `return` paths
(hook raised, message dropped) return without sleeping, and each dispatching
branch falls through to the final sleep. -/
def process_next (handlers : Handlers μ) (ih : Option (InterventionHandler μ))
    (st : RuntimeState μ) : RuntimeState μ × Nat :=
  match st.message_queue with
  | [] => (st, 1)
  | message_envelope :: rest =>
      let st := { st with message_queue := rest }
      match message_envelope with
      | .send message sender recipient fid =>
          let hook : Except PyErr (InterventionOutcome μ) :=
            match ih with
            | none => .ok (.message message)
            | some h => h.on_send message sender recipient
          match hook with
          | .error e => (set_future_exception st fid e, 0)
          | .ok .dropMessage => (set_future_exception st fid .messageDropped, 0)
          | .ok (.message m) =>
              let st := { st with outstanding_tasks := st.outstanding_tasks + 1 }
              (process_send handlers st m sender recipient fid, 1)
      | .publish message sender topic_id =>
          let hook : Except PyErr (InterventionOutcome μ) :=
            match ih with
            | none => .ok (.message message)
            | some h => h.on_publish message sender
          match hook with
          | .error _ => (st, 0)
          | .ok .dropMessage => (st, 0)
          | .ok (.message m) =>
              let st := { st with outstanding_tasks := st.outstanding_tasks + 1 }
              ((process_publish handlers st m sender topic_id).1, 1)
      | .response message fid sender recipient =>
          let hook : Except PyErr (InterventionOutcome μ) :=
            match ih with
            | none => .ok (.message message)
            | some h => h.on_response message sender recipient
          match hook with
          | .error e => (set_future_exception st fid e, 0)
          | .ok .dropMessage => (set_future_exception st fid .messageDropped, 0)
          | .ok (.message m) =>
              let st := { st with outstanding_tasks := st.outstanding_tasks + 1 }
              (process_response st m fid, 1)

/-- `SingleThreadedAgentRuntime.idle`. -/
def idle (st : RuntimeState μ) : Bool :=
  st.message_queue.length == 0 && st.outstanding_tasks == 0

end Agnext

namespace RoutedComponents

/-- A Python runtime type tag.  `anyType` is the `AnyType` sentinel of
`autogen_core.components._type_helpers`; `type(x)` never yields it. -/
inductive RTy where
  | named (name : String)
  | anyType
deriving DecidableEq, Repr

/-- Exceptions raised by (or through) a `message_handler` wrapper. -/
inductive HandlerExc where
  /-- `CantHandleException(msg)` -/
  | cantHandle (msg : String)
  /-- `ValueError(msg)` -/
  | valueError (msg : String)
  /-- an exception escaping the wrapped function's own body -/
  | bodyError (code : Nat)
deriving DecidableEq, Repr

/-- The `wrapper` closure produced by the `message_handler` decorator
(`_routed_agent.py`): checks the message's runtime type against
`target_types` (strict: raise `CantHandleException`; lenient: log), runs the
wrapped function, then checks the produced value's runtime type against
`return_types` unless `AnyType` is declared (strict: raise `ValueError`;
lenient: log).  Returns the produced value together with the warnings
logged. -/
def message_handler_wrapper (strict : Bool) (target_types return_types : List RTy)
    (typeOf : μ → RTy) (func : μ → Except HandlerExc μ) (message : μ) :
    Except HandlerExc (μ × List String) :=
  let typeWarnings : List String :=
    if typeOf message ∈ target_types then []
    else ["Message type not in target types"]
  if typeOf message ∉ target_types ∧ strict = true then
    .error (.cantHandle "Message type not in target types")
  else
    match func message with
    | .error e => .error e
    | .ok return_value =>
        if RTy.anyType ∉ return_types ∧ typeOf return_value ∉ return_types then
          if strict then .error (.valueError "Return type not in return types")
          else .ok (return_value, typeWarnings ++ ["Return type not in return types"])
        else .ok (return_value, typeWarnings)

end RoutedComponents

namespace AutogenCore

open Agnext (AgentId)

/-- Modelled from the spec: the topic-type encodings of the missing module
`autogen_core._well_known_topics` (only its importer `_base_agent.py` is under
the sources).  The spec fixes the encoding `{kind}:{counterpart-type}:{request-id}`
with kind ∈ {request, response, error, cancel} as a stable contract sufficient
to reconstruct, so topic types are modelled as already-parsed values: one
constructor per kind plus `plain` for every other topic string. -/
inductive TopicType where
  | plain (t : String)
  | requestT (recipientType senderType : String)
  | responseT (senderType requestId : String)
  | errorT (recipientType requestId : String)
  | cancelT (requestId : String)
deriving DecidableEq, Repr

/-- Modelled from the spec: `is_error_message` — the request id when the topic
type is an error-kind encoding. -/
def is_error_message : TopicType → Option String
  | .errorT _ rid => some rid
  | _ => none

/-- Modelled from the spec: `is_rpc_cancel`. -/
def is_rpc_cancel : TopicType → Option String
  | .cancelT rid => some rid
  | _ => none

/-- Modelled from the spec: `is_rpc_response`. -/
def is_rpc_response : TopicType → Option String
  | .responseT _ rid => some rid
  | _ => none

/-- Modelled from the spec: `is_rpc_request` — the requestor's agent type when
the topic type is a request-kind encoding. -/
def is_rpc_request : TopicType → Option String
  | .requestT _ senderType => some senderType
  | _ => none

/-- Modelled from the spec: `format_error_topic`. -/
def format_error_topic (error_recipient_agent_type request_id : String) : TopicType :=
  .errorT error_recipient_agent_type request_id

/-- Modelled from the spec: `format_rpc_request_topic`. -/
def format_rpc_request_topic (rpc_recipient_agent_type rpc_sender_agent_type : String) :
    TopicType :=
  .requestT rpc_recipient_agent_type rpc_sender_agent_type

/-- Modelled from the spec: `format_rpc_response_topic`. -/
def format_rpc_response_topic (rpc_sender_agent_type request_id : String) : TopicType :=
  .responseT rpc_sender_agent_type request_id

/-- `TopicId` of this package: a topic type together with a source string. -/
structure TopicId where
  type : TopicType
  source : String
deriving DecidableEq, Repr

/-- Message payloads moving through the RPC emulation: an application value or
one of the sentinel types of `autogen_core._types` (module absent from the
sources; the sentinels are plain marker dataclasses, modelled from the spec's
"none" / "cancelled" / "cannot handle" / "response dropped" sentinels). -/
inductive Payload (μ : Type) where
  | value (v : μ)
  /-- `RpcNoneResponse()` -/
  | rpcNone
  /-- `CancelledRpc()` -/
  | cancelledRpc
  /-- `CancelRpc()` -/
  | cancelRpc
  /-- `CantHandleMessageResponse(message_id)` -/
  | cantHandleResponse (message_id : String)
  /-- `RpcMessageDroppedResponse(request_id)` -/
  | rpcMessageDropped (request_id : String)
deriving DecidableEq, Repr

/-- State of an `asyncio.Future` held in the pending-request table.  A
resolved future stores the `set_result` argument, with Python `None`
represented as `none`. -/
inductive FutState (μ : Type) where
  | unresolved
  | resolvedF (r : Option (Payload μ))
  | failedF (p : Payload μ)
  | cancelledF
deriving DecidableEq, Repr

/-- Exceptions relevant to `BaseAgent.on_message`. -/
inductive BaseExc where
  | cantHandleException
  | invalidStateError
  | implError (code : Nat)
deriving DecidableEq, Repr

/-- The per-instance state of `BaseAgent` (`_base_agent.py`). -/
structure BAState (μ : Type) where
  id : AgentId
  /-- `_pending_rpc_requests : Dict[str, Future]` -/
  pending_rpc_requests : List (String × FutState μ)
  /-- `_self_rpc_handlers_in_progress : Dict[str, Future]` (only membership and
  `cancel()` are used) -/
  self_rpc_handlers_in_progress : List String
  /-- `_sent_rpc_responses : Dict[str, Tuple[str, str]]`:
  response message id ↦ (original request id, requestor agent type) -/
  sent_rpc_responses : List (String × String × String)
  forward_unbound_rpc_responses_to_handler : Bool

/-- Observable actions of one `BaseAgent` method invocation. -/
inductive Effect (μ : Type) where
  /-- `publish_message(payload, topic_id, message_id=...)` handed to the runtime -/
  | publishMsg (topic_id : TopicId) (payload : Payload μ) (message_id : Option String)
  /-- `on_message_impl` invoked with this payload -/
  | callImpl (payload : Payload μ)
  /-- `warnings.warn(text)` -/
  | warn (text : String)
  /-- the pending future of `request_id` resolved by `set_result` (what the
  awaiting `send_message` caller receives; `none` is Python `None`) -/
  | setResult (request_id : String) (r : Option (Payload μ))
  /-- the pending future of `request_id` rejected by `set_exception` -/
  | setException (request_id : String) (p : Payload μ)
  /-- the in-flight handler task of `request_id` cancelled -/
  | cancelInFlight (request_id : String)
  /-- an exception propagating out of the method -/
  | raised (e : BaseExc)
deriving DecidableEq, Repr

/-- Dictionary lookup in an association list (Python dict keys are unique). -/
def dictGet (table : List (String × α)) (key : String) : Option α :=
  (table.find? (fun p => p.1 == key)).map (·.2)

/-- `del table[key]`. -/
def dictDel (table : List (String × α)) (key : String) : List (String × α) :=
  table.filter (fun p => p.1 != key)

/-- `table[key] = v` (over existing keys). -/
def dictSet (table : List (String × α)) (key : String) (v : α) : List (String × α) :=
  table.map (fun p => if p.1 == key then (key, v) else p)

/-- `MessageContext` as used by `on_message` and `_rpc_response`: the topic
the message arrived on and the delivering publish's message id. -/
structure MessageContext where
  topic_id : TopicId
  message_id : String
deriving DecidableEq, Repr

/-- An uncaught `await self.on_message_impl(message, ctx)`: the invocation
effect followed by any exception of the implementation, which propagates. -/
def runImpl (st : BAState μ) (implOutcome : Except BaseExc Unit) (message : Payload μ) :
    BAState μ × List (Effect μ) :=
  match implOutcome with
  | .ok _ => (st, [.callImpl message])
  | .error e => (st, [.callImpl message, .raised e])

/-- `BaseAgent.on_message`, with `implOutcome` describing what
`self.on_message_impl` does if invoked.  Branches in source order: error
topics (correlated sent response / pending request / pass through), RPC
cancel topics, RPC response topics (resolve pending, else forward or warn),
and finally ordinary delivery with `CantHandleException` conversion for RPC
request topics. -/
def on_message (st : BAState μ) (implOutcome : Except BaseExc Unit)
    (message : Payload μ) (ctx : MessageContext) : BAState μ × List (Effect μ) :=
  match is_error_message ctx.topic_id.type with
  | some request_id =>
      match dictGet st.sent_rpc_responses request_id with
      | some (original_rpc_request_message_id, agent_type_of_rpc_sender) =>
          (st, [.publishMsg
                  ⟨format_error_topic agent_type_of_rpc_sender original_rpc_request_message_id,
                   st.id.key⟩
                  (.rpcMessageDropped original_rpc_request_message_id) none])
      | none =>
          match dictGet st.pending_rpc_requests request_id with
          | some _ =>
              ({ st with pending_rpc_requests := dictDel st.pending_rpc_requests request_id },
               [.setException request_id message])
          | none => runImpl st implOutcome message
  | none =>
  match is_rpc_cancel ctx.topic_id.type with
  | some request_id =>
      if request_id ∈ st.self_rpc_handlers_in_progress then
        match message with
        | .cancelRpc =>
            ({ st with self_rpc_handlers_in_progress :=
                 st.self_rpc_handlers_in_progress.filter (fun r => r != request_id) },
             [.cancelInFlight request_id])
        | _ => (st, [])
      else (st, [])
  | none =>
  match is_rpc_response ctx.topic_id.type with
  | some request_id =>
      match dictGet st.pending_rpc_requests request_id with
      | some fut =>
          let result : Option (Payload μ) :=
            match message with
            | .rpcNone => none
            | m => some m
          match message with
          | .cancelledRpc =>
              -- `future.cancel()` marks the future done, so the following
              -- `set_result` raises `InvalidStateError` and the `del` is skipped
              let cancelledFut : FutState μ :=
                match fut with
                | .unresolved => .cancelledF
                | f => f
              ({ st with pending_rpc_requests :=
                   dictSet st.pending_rpc_requests request_id cancelledFut },
               [.raised .invalidStateError])
          | _ =>
              match fut with
              | .unresolved =>
                  ({ st with pending_rpc_requests := dictDel st.pending_rpc_requests request_id },
                   [.setResult request_id result])
              | _ => (st, [.raised .invalidStateError])
      | none =>
          if st.forward_unbound_rpc_responses_to_handler then
            runImpl st implOutcome message
          else
            (st, [.warn ("Received RPC response for unknown request " ++ request_id)])
  | none =>
      match implOutcome with
      | .ok _ => (st, [.callImpl message])
      | .error .cantHandleException =>
          match is_rpc_request ctx.topic_id.type with
          | some requestor_type =>
              (st, [.callImpl message,
                    .publishMsg ⟨format_error_topic requestor_type ctx.message_id, st.id.key⟩
                      (.cantHandleResponse ctx.message_id) none])
          | none => (st, [.callImpl message, .raised .cantHandleException])
      | .error e => (st, [.callImpl message, .raised e])

/-- `BaseAgent.send_message`: publishes the request to the topic
`format_rpc_request_topic(recipient.type, self.id.type)` sourced at the
recipient's key, with a fresh `request_id` as the message id, and registers
the pending future the caller then awaits. -/
def send_message (st : BAState μ) (message : Payload μ) (recipient : AgentId)
    (request_id : String) : BAState μ × List (Effect μ) :=
  let recipient_topic : TopicId :=
    ⟨format_rpc_request_topic recipient.type st.id.type, recipient.key⟩
  ({ st with pending_rpc_requests := st.pending_rpc_requests ++ [(request_id, .unresolved)] },
   [.publishMsg recipient_topic message (some request_id)])

/-- `BaseAgent._rpc_response`: when the delivering topic was an RPC request,
wraps the handler's return value (`None` becomes `RpcNoneResponse`), records
(fresh response message id ↦ (request id, requestor type)) in
`_sent_rpc_responses` and publishes the wrapped value to the response topic
sourced at its own key. -/
def rpc_response (st : BAState μ) (handler_return_value : Option μ)
    (ctx : MessageContext) (message_id : String) : BAState μ × List (Effect μ) :=
  match is_rpc_request ctx.topic_id.type with
  | none => (st, [])
  | some requestor_type =>
      let wrapped : Payload μ :=
        match handler_return_value with
        | none => .rpcNone
        | some v => .value v
      let response_topic_id : TopicId :=
        ⟨format_rpc_response_topic requestor_type ctx.message_id, st.id.key⟩
      ({ st with sent_rpc_responses :=
           st.sent_rpc_responses ++ [(message_id, ctx.message_id, requestor_type)] },
       [.publishMsg response_topic_id wrapped (some message_id)])

end AutogenCore

namespace Agnext

/-! ## Composed scenarios -/

/-- The full lifecycle of one `send_message` call on an otherwise idle
runtime: the synchronous part of `send_message`, then two scheduler
iterations — the first processes the send envelope, the second the response
envelope it may have produced (or idles).  Returns the caller's future id (or
the synchronously raised exception) and the final runtime state. -/
def run_send (handlers : Handlers μ) (ih : Option (InterventionHandler μ))
    (st : RuntimeState μ) (message : μ) (recipient : AgentId)
    (sender : Option AgentId) : Except PyErr Nat × RuntimeState μ :=
  match send_message st message recipient sender with
  | (.error e, st1) => (.error e, st1)
  | (.ok fid, st1) =>
      let st2 := (process_next handlers ih st1).1
      let st3 := (process_next handlers ih st2).1
      (.ok fid, st3)

/-- Whether the intervention pipeline stops this envelope (hook raised or
returned `DropMessage`) — the branches of `process_next` that return early. -/
def interventionHalts (ih : Option (InterventionHandler μ)) : Envelope μ → Bool
  | .send message sender recipient _ =>
      match ih with
      | none => false
      | some h =>
          match h.on_send message sender recipient with
          | .error _ => true
          | .ok .dropMessage => true
          | .ok (.message _) => false
  | .publish message sender _ =>
      match ih with
      | none => false
      | some h =>
          match h.on_publish message sender with
          | .error _ => true
          | .ok .dropMessage => true
          | .ok (.message _) => false
  | .response message _ sender recipient =>
      match ih with
      | none => false
      | some h =>
          match h.on_response message sender recipient with
          | .error _ => true
          | .ok .dropMessage => true
          | .ok (.message _) => false

/-! ## Concrete scenario values (used by closed theorems and witnesses) -/

/-- An empty, freshly constructed runtime. -/
def emptyRt : RuntimeState Nat := ⟨[], [], 0, [], [], [], [], 0, 0⟩

/-- A topic used by the scenarios. -/
def tTopic : TopicId := ⟨"t", "default"⟩

/-- A `TypeSubscription`-style subscription: matches topic type `"t"`, maps to
agent type `"A"` keyed by the topic source. -/
def subA : Subscription :=
  ⟨"sub-a", fun topic => topic.type == "t", fun topic => ⟨"A", topic.source⟩⟩

/-- Like `subA`, routing topic type `"t"` to agent type `"B"`. -/
def subB : Subscription :=
  ⟨"sub-b", fun topic => topic.type == "t", fun topic => ⟨"B", topic.source⟩⟩

/-- A subscription for the unrelated topic type `"u"`. -/
def subU : Subscription :=
  ⟨"sub-u", fun topic => topic.type == "u", fun topic => ⟨"B", topic.source⟩⟩

/-- Handlers that return the message unchanged. -/
def okHandlers : Handlers Nat := fun _ message => .ok message

/-- Handlers where every agent's handler raises. -/
def raisingHandlers : Handlers Nat := fun _ _ => .error (.handlerError 7)

/-- Handlers where only agent type `"A"` raises. -/
def handlersAFails : Handlers Nat :=
  fun agent message => if agent.type == "A" then .error (.handlerError 7) else .ok message

/-- A runtime whose queue holds one send envelope for the registered agent
type `"R"`, with future 0 unresolved — the scheduler is about to dequeue it. -/
def pendingSendRt : RuntimeState Nat :=
  { emptyRt with
    message_queue := [.send 0 none ⟨"R", "k"⟩ 0]
    agent_factory_types := ["R"]
    futures := [(0, .unresolved)]
    next_future_id := 1 }

/-- An intervention handler that drops every envelope. -/
def dropAllHandler : InterventionHandler Nat :=
  ⟨fun _ _ _ => .ok .dropMessage, fun _ _ => .ok .dropMessage, fun _ _ _ => .ok .dropMessage⟩

/-- Registry state for the removal scenario: subscriptions `subA` and `subU`
with `tTopic` already routed once (so it is in `_seen_topics`). -/
def removalScenario : RuntimeState Nat :=
  build_for_new_topic
    { emptyRt with subscriptions := [subA, subU], agent_factory_types := ["A", "B"] }
    tTopic

/-- The registry after removing subscription `"sub-u"`. -/
def removalResult : Except PyErr (RuntimeState Nat) :=
  remove_subscription removalScenario "sub-u"

/-- The memoized routing of `topic` in the state a registry call returned. -/
def routedAfter (r : Except PyErr (RuntimeState Nat)) (topic : TopicId) :
    Option (List AgentId) :=
  match r with
  | .ok st => some (recipientsOf st topic)
  | .error _ => none

/-- The routing of `topic` recomputed from the subscriptions that remain in
the state a registry call returned. -/
def matchedAfter (r : Except PyErr (RuntimeState Nat)) (topic : TopicId) :
    Option (List AgentId) :=
  match r with
  | .ok st => some ((st.subscriptions.filter (fun s => s.is_match topic)).map
      (fun s => s.map_to_agent topic))
  | .error _ => none

/-- Publish fan-out scenario: `tTopic` routes to agent types `"A"` and `"B"`,
and a third registered type `"S"` acts as the sender. -/
def fanoutRt : RuntimeState Nat :=
  { emptyRt with
    subscriptions := [subA, subB]
    agent_factory_types := ["A", "B", "S"] }

end Agnext

namespace RoutedComponents

/-- A runtime-type assignment for the wrapper scenario: `0` has type `"M"`,
everything else type `"S"`. -/
def scenarioTypeOf : Nat → RTy := fun n => if n == 0 then .named "M" else .named "S"

/-- A wrapped handler body returning `1` (of runtime type `"S"`). -/
def scenarioFunc : Nat → Except HandlerExc Nat := fun _ => .ok 1

/-- Whether a wrapper outcome is a raised `CantHandleException`. -/
def isCantHandle : Except HandlerExc (Nat × List String) → Bool
  | .error (.cantHandle _) => true
  | _ => false

end RoutedComponents

namespace AutogenCore

/-- One RPC-over-publish round trip, composed from the source operations.
Step 3 is modelled from the spec: the routed dispatch layer that hands the
handler's return value `R` to `_rpc_response` after an RPC request was
handled is absent from the sources ("After the handler returns …, the
recipient's base layer auto-wraps the outcome").  Step 4 delivers exactly the
payload that step 3 published.  Returns A's final state and the effects of
the final delivery. -/
def rpc_round_trip (A B : BAState μ) (message : Payload μ) (R : Option μ)
    (implA : Except BaseExc Unit) (request_id response_mid : String) :
    BAState μ × List (Effect μ) :=
  let step1 := send_message A message B.id request_id
  let A1 := step1.1
  let ctxB : MessageContext :=
    ⟨⟨format_rpc_request_topic B.id.type A.id.type, B.id.key⟩, request_id⟩
  let step2 := on_message B (.ok ()) message ctxB
  let B1 := step2.1
  let step3 := rpc_response B1 R ctxB response_mid
  match step3.2 with
  | [Effect.publishMsg topic payload (some mid)] =>
      on_message A1 implA payload ⟨topic, mid⟩
  | _ => (A1, [])

/-- The value a resolved RPC future carries for a handler return value `R`
(`None` results are wrapped to the none sentinel and mapped back to `None`). -/
def wrapResult (R : Option μ) : Option (Payload μ) := R.map .value

/-- Concrete caller agent for the witnesses. -/
def agentA : BAState Nat := ⟨⟨"A", "kA"⟩, [], [], [], false⟩

/-- Concrete callee agent for the witnesses. -/
def agentB : BAState Nat := ⟨⟨"B", "kB"⟩, [], [], [], false⟩

/-- A delivery context on an RPC response topic for an unknown request id. -/
def unboundCtx : MessageContext := ⟨⟨.responseT "A" "r9", "kB"⟩, "m9"⟩

end AutogenCore

namespace Agnext

/-! ## Helper lemmas about the future store -/

theorem storeGet_append_new (l : List (Nat × FutureState μ)) (fid : Nat) (s : FutureState μ)
    (h : storeGet l fid = none) : storeGet (l ++ [(fid, s)]) fid = some s := by
  unfold storeGet at h ⊢
  rcases hf : l.find? (fun p => p.1 == fid) with _ | v
  · rw [List.find?_append, hf]
    simp [List.find?_cons]
  · rw [hf] at h
    simp at h

theorem storeGet_storeSet_self (l : List (Nat × FutureState μ)) (fid : Nat) (s : FutureState μ)
    (h : (storeGet l fid).isSome) : storeGet (storeSet l fid s) fid = some s := by
  induction l with
  | nil => simp [storeGet] at h
  | cons p t ih =>
      unfold storeSet
      rw [List.map_cons]
      cases hp : (p.1 == fid) with
      | true =>
          rw [if_pos rfl]
          unfold storeGet
          rw [List.find?_cons]
          simp only [beq_self_eq_true]
          rfl
      | false =>
          rw [if_neg (by simp)]
          unfold storeGet
          rw [List.find?_cons]
          have hpb : ((p.1 == fid) = false) := hp
          simp only [hpb]
          have h' : (storeGet t fid).isSome := by
            unfold storeGet at h ⊢
            rw [List.find?_cons] at h
            simpa [hp] using h
          exact ih h'

theorem set_future_exception_queue (st : RuntimeState μ) (fid : Nat) (e : PyErr) :
    (set_future_exception st fid e).message_queue = st.message_queue := by
  unfold set_future_exception
  cases h : futureOf st fid with
  | none => rfl
  | some f => cases f <;> rfl

theorem set_future_result_queue (st : RuntimeState μ) (fid : Nat) (v : μ) :
    (set_future_result st fid v).message_queue = st.message_queue := by
  unfold set_future_result
  cases h : futureOf st fid with
  | none => rfl
  | some f => cases f <;> rfl

theorem set_future_exception_unresolved (st : RuntimeState μ) (fid : Nat) (e : PyErr)
    (h : futureOf st fid = some .unresolved) :
    set_future_exception st fid e =
      { st with futures := storeSet st.futures fid (.exception e),
                future_writes := st.future_writes + 1 } := by
  unfold set_future_exception
  rw [h]

theorem set_future_result_unresolved (st : RuntimeState μ) (fid : Nat) (v : μ)
    (h : futureOf st fid = some .unresolved) :
    set_future_result st fid v =
      { st with futures := storeSet st.futures fid (.result v),
                future_writes := st.future_writes + 1 } := by
  unfold set_future_result
  rw [h]

theorem set_future_exception_done (st : RuntimeState μ) (fid : Nat) (e : PyErr)
    (h : futureOf st fid ≠ some .unresolved) :
    set_future_exception st fid e = st := by
  unfold set_future_exception
  cases hf : futureOf st fid with
  | none => rfl
  | some f =>
      cases f with
      | unresolved => exact absurd hf h
      | result v => rfl
      | exception e => rfl
      | cancelled => rfl

/-- C9: if a sender is supplied whose key differs from the recipient's key,
`send_message` raises `ValueError` synchronously and leaves the message queue
unchanged (no envelope is appended by the failed call). -/
theorem C9_key_mismatch_raises (st : RuntimeState μ) (message : μ) (recipient s : AgentId)
    (h : s.key ≠ recipient.key) :
    (send_message st message recipient (some s)).1 =
      .error (.valueError "Sender and recipient must be in the same namespace to communicate.") ∧
    ((send_message st message recipient (some s)).2).message_queue = st.message_queue := by
  constructor
  · unfold send_message
    simp [h]
  · unfold send_message
    simp only [h, ne_eq, not_false_eq_true, if_true]
    split
    · rfl
    · rw [set_future_exception_queue]

theorem C9_witness :
    (send_message emptyRt 0 ⟨"a", "k1"⟩ (some ⟨"b", "k2"⟩)).1 =
      .error (.valueError "Sender and recipient must be in the same namespace to communicate.") ∧
    ((send_message emptyRt 0 ⟨"a", "k1"⟩ (some ⟨"b", "k2"⟩)).2).message_queue =
      emptyRt.message_queue :=
  C9_key_mismatch_raises emptyRt 0 ⟨"a", "k1"⟩ ⟨"b", "k2"⟩ (by decide)

end Agnext

namespace Agnext

/-- C1: the code violates the claim — dequeuing a send envelope whose handler
raises increments the outstanding-work counter once but never decrements it:
`_process_send` returns from its `except BaseException` path before the
decrement and has no `finally`, so after the unit of work terminates with the
exception stored in the caller's future, the counter is stuck at 1 with an
empty queue and the runtime can never become idle again. -/
theorem C1_send_exception_never_decrements :
    ((process_next raisingHandlers none pendingSendRt).1).outstanding_tasks = 1 ∧
    ((process_next raisingHandlers none pendingSendRt).1).message_queue = [] ∧
    futureOf (process_next raisingHandlers none pendingSendRt).1 0 =
      some (.exception (.handlerError 7)) ∧
    idle (process_next raisingHandlers none pendingSendRt).1 = false :=
  ⟨rfl, rfl, rfl, rfl⟩

/-- C3: the code violates the claim — after a successful `remove_subscription`
the routing cache is empty for a previously observed topic even though a
remaining subscription still matches it: `_rebuild_subscriptions` iterates
over `self._seen_topics` while `_build_for_new_topic` early-returns for every
topic already in `self._seen_topics` (the same set object), so the cleared
cache is never repopulated. -/
theorem C3_remove_subscription_breaks_routing :
    routedAfter removalResult tTopic = some [] ∧
    matchedAfter removalResult tTopic = some [⟨"A", "default"⟩] ∧
    routedAfter removalResult tTopic ≠ matchedAfter removalResult tTopic := by
  have h1 : routedAfter removalResult tTopic = some [] := rfl
  have h2 : matchedAfter removalResult tTopic = some [⟨"A", "default"⟩] := rfl
  refine ⟨h1, h2, ?_⟩
  rw [h1, h2]
  simp

/-- C7 counterexample: with an intervention handler that drops the head
envelope, `process_next` returns without any `asyncio.sleep(0)` yield,
refuting the claim that every invocation yields on every branch. -/
theorem C7_drop_branch_does_not_yield :
    (process_next okHandlers (some dropAllHandler) pendingSendRt).2 = 0 := rfl

/-- C7 (amended): `process_next` yields exactly once when the queue is empty
and on every branch that dispatches a unit of work (in particular always when
no intervention handler is installed), but returns without yielding when the
intervention pipeline drops the head envelope or its hook raises. -/
theorem C7_amended_yield_characterization (handlers : Handlers μ)
    (ih : Option (InterventionHandler μ)) (st : RuntimeState μ) :
    (process_next handlers ih st).2 =
      match st.message_queue with
      | [] => 1
      | env :: _ => if interventionHalts ih env then 0 else 1 := by
  cases hq : st.message_queue with
  | nil => simp [process_next, hq]
  | cons env rest =>
      cases env with
      | send m s r fid =>
          cases ih with
          | none => simp [process_next, interventionHalts, hq]
          | some h =>
              rcases hh : h.on_send m s r with e | o
              · simp [process_next, interventionHalts, hq, hh]
              · cases o <;> simp [process_next, interventionHalts, hq, hh]
      | publish m s topic =>
          cases ih with
          | none => simp [process_next, interventionHalts, hq]
          | some h =>
              rcases hh : h.on_publish m s with e | o
              · simp [process_next, interventionHalts, hq, hh]
              · cases o <;> simp [process_next, interventionHalts, hq, hh]
      | response m fid s r =>
          cases ih with
          | none => simp [process_next, interventionHalts, hq]
          | some h =>
              rcases hh : h.on_response m s r with e | o
              · simp [process_next, interventionHalts, hq, hh]
              · cases o <;> simp [process_next, interventionHalts, hq, hh]

end Agnext

namespace RoutedComponents

/-- C6 counterexample: in strict mode a produced result whose type is not
among the declared result types makes the wrapper raise `ValueError`, not
`CantHandleException` as the claim states. -/
theorem C6_result_type_raises_ValueError_not_CantHandle :
    message_handler_wrapper true [RTy.named "M"] [RTy.named "R"]
      scenarioTypeOf scenarioFunc 0 =
      .error (.valueError "Return type not in return types") ∧
    isCantHandle (message_handler_wrapper true [RTy.named "M"] [RTy.named "R"]
      scenarioTypeOf scenarioFunc 0) = false :=
  ⟨rfl, rfl⟩

/-- C6 (amended): per `message_handler` wrapper invocation, strict mode raises
`CantHandleException` when the message's runtime type is not among the
declared accepted types, and `ValueError` when the produced result's type is
not among the declared result types (skipped when `AnyType` is declared);
lenient (non-strict) mode only logs warnings in both cases and the call
proceeds, returning the handler's value. -/
theorem C6_amended_type_check_contract (strict : Bool)
    (target_types return_types : List RTy) (typeOf : μ → RTy)
    (func : μ → Except HandlerExc μ) (message : μ) :
    (strict = true → typeOf message ∉ target_types →
      message_handler_wrapper strict target_types return_types typeOf func message =
        .error (.cantHandle "Message type not in target types")) ∧
    (strict = true → typeOf message ∈ target_types →
      ∀ rv, func message = .ok rv → RTy.anyType ∉ return_types →
        typeOf rv ∉ return_types →
        message_handler_wrapper strict target_types return_types typeOf func message =
          .error (.valueError "Return type not in return types")) ∧
    (strict = false → ∀ rv, func message = .ok rv →
      ∃ warnings,
        message_handler_wrapper strict target_types return_types typeOf func message =
          .ok (rv, warnings)) := by
  refine ⟨?_, ?_, ?_⟩
  · intro hs hmem
    simp only [message_handler_wrapper]
    rw [if_pos ⟨hmem, hs⟩]
  · intro hs hmem rv hrv hany hret
    simp only [message_handler_wrapper, hrv]
    rw [if_neg (by simp [hmem]), if_pos ⟨hany, hret⟩, if_pos hs]
  · intro hs rv hrv
    simp only [message_handler_wrapper, hrv]
    rw [if_neg (by simp [hs])]
    by_cases hc : RTy.anyType ∉ return_types ∧ typeOf rv ∉ return_types
    · rw [if_pos hc, if_neg (by simp [hs])]
      exact ⟨_, rfl⟩
    · rw [if_neg hc]
      exact ⟨_, rfl⟩

theorem C6_amended_witness :
    message_handler_wrapper true [RTy.named "X"] [RTy.named "R"]
      scenarioTypeOf scenarioFunc 0 =
      .error (.cantHandle "Message type not in target types") :=
  (C6_amended_type_check_contract true [RTy.named "X"] [RTy.named "R"]
    scenarioTypeOf scenarioFunc 0).1 rfl (by decide)

end RoutedComponents

namespace AutogenCore

/-- C10: a message arriving on an RPC response topic whose request id is not
in the pending-request table is not delivered to `on_message_impl` unless the
agent was constructed with `forward_unbound_rpc_responses_to_handler=True`;
in the default configuration the only observable effect is a warning and the
agent's state (pending table included) is unchanged. -/
theorem C10_unbound_rpc_response (st : BAState μ) (implOutcome : Except BaseExc Unit)
    (message : Payload μ) (ctx : MessageContext) (rid : String)
    (hresp : is_rpc_response ctx.topic_id.type = some rid)
    (hunbound : dictGet st.pending_rpc_requests rid = none) :
    (st.forward_unbound_rpc_responses_to_handler = false →
      on_message st implOutcome message ctx =
        (st, [.warn ("Received RPC response for unknown request " ++ rid)])) ∧
    (st.forward_unbound_rpc_responses_to_handler = true →
      Effect.callImpl message ∈ (on_message st implOutcome message ctx).2) := by
  cases htt : ctx.topic_id.type with
  | plain t => rw [htt] at hresp; simp [is_rpc_response] at hresp
  | requestT a b => rw [htt] at hresp; simp [is_rpc_response] at hresp
  | errorT a b => rw [htt] at hresp; simp [is_rpc_response] at hresp
  | cancelT a => rw [htt] at hresp; simp [is_rpc_response] at hresp
  | responseT sTy rid' =>
      rw [htt] at hresp
      simp only [is_rpc_response, Option.some.injEq] at hresp
      subst hresp
      constructor
      · intro hf
        simp [on_message, htt, is_error_message, is_rpc_cancel, is_rpc_response,
          hunbound, hf]
      · intro hf
        simp only [on_message, htt, is_error_message, is_rpc_cancel, is_rpc_response,
          hunbound, hf]
        cases implOutcome <;> simp [runImpl]

theorem C10_witness :
    on_message agentA (.ok ()) (Payload.value 5) unboundCtx =
      (agentA, [.warn ("Received RPC response for unknown request " ++ "r9")]) :=
  (C10_unbound_rpc_response agentA (.ok ()) (Payload.value 5) unboundCtx "r9"
    rfl rfl).1 rfl

end AutogenCore

namespace Agnext

theorem build_for_new_topic_factory (st : RuntimeState μ) (topic : TopicId) :
    (build_for_new_topic st topic).agent_factory_types = st.agent_factory_types := by
  unfold build_for_new_topic
  split <;> rfl

theorem publishLoop_complete (handlers : Handlers μ) (known : List String) (message : μ)
    (sender : Option AgentId) (rs : List AgentId)
    (hs : ∀ s, sender = some s → s.type ∈ known)
    (hr : ∀ a ∈ rs, sender ≠ some a → a.type ∈ known) :
    ∃ outcomes, publishLoop handlers known message sender rs = .ok outcomes ∧
      (∀ p ∈ outcomes, sender ≠ some p.1) ∧
      (∀ a ∈ rs, sender ≠ some a → (a, handlers a message) ∈ outcomes) := by
  induction rs with
  | nil => exact ⟨[], rfl, by simp, by simp⟩
  | cons a rest ih =>
      obtain ⟨outs, hout, hno, hall⟩ :=
        ih (fun b hb hnb => hr b (List.mem_cons_of_mem _ hb) hnb)
      by_cases ha : sender = some a
      · refine ⟨outs, ?_, hno, ?_⟩
        · simp only [publishLoop, if_pos ha]
          exact hout
        · intro b hb hnb
          rcases List.mem_cons.mp hb with heq | hb'
          · subst heq
            exact absurd ha hnb
          · exact hall b hb' hnb
      · have hknown : a.type ∈ known := hr a (List.mem_cons_self a rest) ha
        refine ⟨(a, handlers a message) :: outs, ?_, ?_, ?_⟩
        · cases sender with
          | none => simp [publishLoop, hknown, hout]
          | some s =>
              have hsk : s.type ∈ known := hs s rfl
              simp [publishLoop, ha, hknown, hout, hsk]
        · intro p hp
          rcases List.mem_cons.mp hp with heq | hp'
          · subst heq
            exact ha
          · exact hno p hp'
        · intro b hb hnb
          rcases List.mem_cons.mp hb with heq | hb'
          · subst heq
            exact List.mem_cons_self _ _
          · exact List.mem_cons_of_mem _ (hall b hb' hnb)

/-- C5: the fan-out of a publish with a set sender excludes the sender's own
agent id — no invoked handler belongs to the sender — while every other agent
routed for the topic has its handler invoked with the message (the
registered-agent lookups of the dispatch loop succeeding). -/
theorem C5_publish_excludes_sender (handlers : Handlers μ) (st : RuntimeState μ)
    (message : μ) (s : AgentId) (topic : TopicId)
    (hs : s.type ∈ st.agent_factory_types)
    (hr : ∀ a ∈ recipientsOf (build_for_new_topic st topic) topic, a ≠ s →
      a.type ∈ st.agent_factory_types) :
    (∀ p ∈ (process_publish handlers st message (some s) topic).2.2, p.1 ≠ s) ∧
    (∀ a ∈ recipientsOf (build_for_new_topic st topic) topic, a ≠ s →
      (a, handlers a message) ∈ (process_publish handlers st message (some s) topic).2.2) := by
  obtain ⟨outs, hout, hno, hall⟩ := publishLoop_complete handlers
    (build_for_new_topic st topic).agent_factory_types message (some s)
    (recipientsOf (build_for_new_topic st topic) topic)
    (fun s' hs' => by
      cases hs'
      rw [build_for_new_topic_factory]
      exact hs)
    (fun a ha hna => by
      rw [build_for_new_topic_factory]
      exact hr a ha (fun he => hna (by rw [he])))
  have hpp : (process_publish handlers st message (some s) topic).2.2 = outs := by
    unfold process_publish
    simp only [hout]
    cases hge : firstGatherError outs with
    | none => rfl
    | some e => by_cases hce : e = PyErr.cancelledError <;> simp [hce]
  rw [hpp]
  constructor
  · intro p hp heq
    exact hno p hp (by rw [heq])
  · intro a ha hna
    exact hall a ha (fun he => hna (Option.some_injective _ he).symm)

theorem C5_witness :
    ((⟨"B", "default"⟩ : AgentId), Except.ok 5) ∈
      (process_publish okHandlers fanoutRt 5 (some ⟨"A", "default"⟩) tTopic).2.2 :=
  (C5_publish_excludes_sender okHandlers fanoutRt 5 ⟨"A", "default"⟩ tTopic
    (by decide) (by decide)).2 ⟨"B", "default"⟩ (by decide) (by decide)

/-- C4: publish fan-out isolates per-recipient failures — with agents A and B
both routed for the topic (distinct from each other and from the sender) and
A's handler raising, B's handler is still invoked with the message; the
gathered failure is logged, never surfaced to the publisher (the fan-out
result is never the loop-level `raised`), and a fan-out whose gathered
exception is a `CancelledError` is a silent abort rather than an error. -/
theorem C4_publish_failure_isolation (handlers : Handlers μ) (st : RuntimeState μ)
    (message : μ) (sender : Option AgentId) (A B : AgentId) (topic : TopicId) (e : PyErr)
    (hs : ∀ s, sender = some s → s.type ∈ st.agent_factory_types)
    (hr : ∀ a ∈ recipientsOf (build_for_new_topic st topic) topic, sender ≠ some a →
      a.type ∈ st.agent_factory_types)
    (hA : A ∈ recipientsOf (build_for_new_topic st topic) topic)
    (hB : B ∈ recipientsOf (build_for_new_topic st topic) topic)
    (hAB : A ≠ B) (hsA : sender ≠ some A) (hsB : sender ≠ some B)
    (hAfail : handlers A message = .error e) :
    (B, handlers B message) ∈ (process_publish handlers st message sender topic).2.2 ∧
    (∀ e', (process_publish handlers st message sender topic).2.1 ≠ .raised e') ∧
    (firstGatherError (process_publish handlers st message sender topic).2.2 =
        some PyErr.cancelledError →
      (process_publish handlers st message sender topic).2.1 = .silentAbort) := by
  obtain ⟨outs, hout, hno, hall⟩ := publishLoop_complete handlers
    (build_for_new_topic st topic).agent_factory_types message sender
    (recipientsOf (build_for_new_topic st topic) topic)
    (fun s' hs' => by
      rw [build_for_new_topic_factory]
      exact hs s' hs')
    (fun a ha hna => by
      rw [build_for_new_topic_factory]
      exact hr a ha hna)
  have hpp : (process_publish handlers st message sender topic).2.2 = outs := by
    unfold process_publish
    simp only [hout]
    cases hge : firstGatherError outs with
    | none => rfl
    | some e' => by_cases hce : e' = PyErr.cancelledError <;> simp [hce]
  refine ⟨?_, ?_, ?_⟩
  · rw [hpp]
    exact hall B hB hsB
  · intro e'
    unfold process_publish
    simp only [hout]
    cases hge : firstGatherError outs with
    | none => simp
    | some e'' => by_cases hce : e'' = PyErr.cancelledError <;> simp [hce]
  · rw [hpp]
    intro hcan
    unfold process_publish
    simp only [hout, hcan]
    rfl

theorem C4_witness :
    ((⟨"B", "default"⟩ : AgentId), Except.ok 5) ∈
      (process_publish handlersAFails fanoutRt 5 (some ⟨"S", "default"⟩) tTopic).2.2 :=
  (C4_publish_failure_isolation handlersAFails fanoutRt 5 (some ⟨"S", "default"⟩)
    ⟨"A", "default"⟩ ⟨"B", "default"⟩ tTopic (.handlerError 7)
    (by intro s h; cases h; decide) (by decide) (by decide) (by decide)
    (by decide) (by decide) (by decide) rfl).1

end Agnext

namespace Agnext

theorem set_future_exception_spec (st : RuntimeState μ) (fid : Nat) (e : PyErr)
    (h : futureOf st fid = some .unresolved) :
    futureOf (set_future_exception st fid e) fid = some (.exception e) ∧
    (set_future_exception st fid e).future_writes = st.future_writes + 1 ∧
    (set_future_exception st fid e).message_queue = st.message_queue := by
  rw [set_future_exception_unresolved st fid e h]
  refine ⟨?_, rfl, rfl⟩
  show storeGet (storeSet st.futures fid (.exception e)) fid = some (.exception e)
  apply storeGet_storeSet_self
  rw [show storeGet st.futures fid = some FutureState.unresolved from h]
  rfl

theorem set_future_result_spec (st : RuntimeState μ) (fid : Nat) (v : μ)
    (h : futureOf st fid = some .unresolved) :
    futureOf (set_future_result st fid v) fid = some (.result v) ∧
    (set_future_result st fid v).future_writes = st.future_writes + 1 ∧
    (set_future_result st fid v).message_queue = st.message_queue := by
  rw [set_future_result_unresolved st fid v h]
  refine ⟨?_, rfl, rfl⟩
  show storeGet (storeSet st.futures fid (.result v)) fid = some (.result v)
  apply storeGet_storeSet_self
  rw [show storeGet st.futures fid = some FutureState.unresolved from h]
  rfl

theorem process_next_empty (handlers : Handlers μ) (ih : Option (InterventionHandler μ))
    (s0 : RuntimeState μ) (hq : s0.message_queue = []) :
    (process_next handlers ih s0).1 = s0 := by
  simp [process_next, hq]

theorem process_next_send_unresolved (handlers : Handlers μ)
    (ih : Option (InterventionHandler μ)) (s0 : RuntimeState μ) (m : μ)
    (sender : Option AgentId) (recipient : AgentId) (fid : Nat)
    (hq : s0.message_queue = [.send m sender recipient fid])
    (hf : futureOf s0 fid = some .unresolved) :
    (∃ e, futureOf (process_next handlers ih s0).1 fid = some (.exception e) ∧
      ((process_next handlers ih s0).1).future_writes = s0.future_writes + 1 ∧
      ((process_next handlers ih s0).1).message_queue = []) ∨
    (∃ resp, futureOf (process_next handlers ih s0).1 fid = some .unresolved ∧
      ((process_next handlers ih s0).1).future_writes = s0.future_writes ∧
      ((process_next handlers ih s0).1).message_queue =
        [.response resp fid recipient sender]) := by
  have hdispatch : ∀ m' : μ,
      (∃ e, futureOf (process_send handlers
          { s0 with message_queue := [], outstanding_tasks := s0.outstanding_tasks + 1 }
          m' sender recipient fid) fid = some (.exception e) ∧
        (process_send handlers
          { s0 with message_queue := [], outstanding_tasks := s0.outstanding_tasks + 1 }
          m' sender recipient fid).future_writes = s0.future_writes + 1 ∧
        (process_send handlers
          { s0 with message_queue := [], outstanding_tasks := s0.outstanding_tasks + 1 }
          m' sender recipient fid).message_queue = []) ∨
      (∃ resp, futureOf (process_send handlers
          { s0 with message_queue := [], outstanding_tasks := s0.outstanding_tasks + 1 }
          m' sender recipient fid) fid = some .unresolved ∧
        (process_send handlers
          { s0 with message_queue := [], outstanding_tasks := s0.outstanding_tasks + 1 }
          m' sender recipient fid).future_writes = s0.future_writes ∧
        (process_send handlers
          { s0 with message_queue := [], outstanding_tasks := s0.outstanding_tasks + 1 }
          m' sender recipient fid).message_queue =
          [.response resp fid recipient sender]) := by
    intro m'
    by_cases hreg : recipient.type ∈ s0.agent_factory_types
    · rcases hh : handlers recipient m' with e | resp
      · left
        refine ⟨e, ?_⟩
        have hb := set_future_exception_spec
          { s0 with message_queue := [], outstanding_tasks := s0.outstanding_tasks + 1 }
          fid e hf
        simpa [process_send, hreg, hh] using hb
      · right
        refine ⟨resp, ?_, ?_, ?_⟩
        · simp only [process_send, hreg, if_true, hh]
          exact hf
        · simp [process_send, hreg, hh]
        · simp [process_send, hreg, hh]
    · left
      refine ⟨.lookupError ("Agent with name " ++ recipient.type ++ " not found."), ?_⟩
      have hb := set_future_exception_spec
        { s0 with message_queue := [], outstanding_tasks := s0.outstanding_tasks + 1 }
        fid (.lookupError ("Agent with name " ++ recipient.type ++ " not found.")) hf
      simpa [process_send, hreg] using hb
  cases ih with
  | none =>
      simp only [process_next, hq]
      exact hdispatch m
  | some h =>
      rcases hh : h.on_send m sender recipient with e | o
      · simp only [process_next, hq, hh]
        left
        refine ⟨e, ?_⟩
        have hb := set_future_exception_spec { s0 with message_queue := [] } fid e hf
        exact ⟨hb.1, hb.2.1, hb.2.2⟩
      · cases o with
        | dropMessage =>
            simp only [process_next, hq, hh]
            left
            refine ⟨.messageDropped, ?_⟩
            have hb := set_future_exception_spec { s0 with message_queue := [] } fid
              .messageDropped hf
            exact ⟨hb.1, hb.2.1, hb.2.2⟩
        | message m' =>
            simp only [process_next, hq, hh]
            exact hdispatch m'

theorem process_next_send_done (handlers : Handlers μ)
    (ih : Option (InterventionHandler μ)) (s0 : RuntimeState μ) (m : μ)
    (sender : Option AgentId) (recipient : AgentId) (fid : Nat) (err : PyErr)
    (hq : s0.message_queue = [.send m sender recipient fid])
    (hf : futureOf s0 fid = some (.exception err))
    (hunreg : recipient.type ∉ s0.agent_factory_types) :
    futureOf (process_next handlers ih s0).1 fid = some (.exception err) ∧
    ((process_next handlers ih s0).1).future_writes = s0.future_writes ∧
    ((process_next handlers ih s0).1).message_queue = [] := by
  have hdone : ∀ (st' : RuntimeState μ) (e : PyErr), st'.futures = s0.futures →
      set_future_exception st' fid e = st' := by
    intro st' e hfut
    apply set_future_exception_done
    show storeGet st'.futures fid ≠ some FutureState.unresolved
    rw [hfut]
    rw [show storeGet s0.futures fid = some (FutureState.exception err) from hf]
    simp
  have hdispatch : ∀ m' : μ,
      futureOf (process_send handlers
        { s0 with message_queue := [], outstanding_tasks := s0.outstanding_tasks + 1 }
        m' sender recipient fid) fid = some (.exception err) ∧
      (process_send handlers
        { s0 with message_queue := [], outstanding_tasks := s0.outstanding_tasks + 1 }
        m' sender recipient fid).future_writes = s0.future_writes ∧
      (process_send handlers
        { s0 with message_queue := [], outstanding_tasks := s0.outstanding_tasks + 1 }
        m' sender recipient fid).message_queue = [] := by
    intro m'
    have hstep : process_send handlers
        { s0 with message_queue := [], outstanding_tasks := s0.outstanding_tasks + 1 }
        m' sender recipient fid =
        { s0 with message_queue := [], outstanding_tasks := s0.outstanding_tasks + 1 } := by
      simp only [process_send, hunreg]
      exact hdone _ _ rfl
    rw [hstep]
    exact ⟨hf, rfl, rfl⟩
  cases ih with
  | none =>
      simp only [process_next, hq]
      exact hdispatch m
  | some h =>
      rcases hh : h.on_send m sender recipient with e | o
      · simp only [process_next, hq, hh]
        rw [hdone { s0 with message_queue := [] } e rfl]
        exact ⟨hf, rfl, rfl⟩
      · cases o with
        | dropMessage =>
            simp only [process_next, hq, hh]
            rw [hdone { s0 with message_queue := [] } .messageDropped rfl]
            exact ⟨hf, rfl, rfl⟩
        | message m' =>
            simp only [process_next, hq, hh]
            exact hdispatch m'

theorem process_next_response_unresolved (handlers : Handlers μ)
    (ih : Option (InterventionHandler μ)) (s0 : RuntimeState μ) (m : μ)
    (sender : AgentId) (recipient : Option AgentId) (fid : Nat)
    (hq : s0.message_queue = [.response m fid sender recipient])
    (hf : futureOf s0 fid = some .unresolved) :
    ((∃ v, futureOf (process_next handlers ih s0).1 fid = some (.result v)) ∨
     (∃ e, futureOf (process_next handlers ih s0).1 fid = some (.exception e))) ∧
    ((process_next handlers ih s0).1).future_writes = s0.future_writes + 1 := by
  have hdispatch : ∀ m' : μ,
      futureOf (process_response
        { s0 with message_queue := [], outstanding_tasks := s0.outstanding_tasks + 1 }
        m' fid) fid = some (.result m') ∧
      (process_response
        { s0 with message_queue := [], outstanding_tasks := s0.outstanding_tasks + 1 }
        m' fid).future_writes = s0.future_writes + 1 := by
    intro m'
    have hb := set_future_result_spec
      { s0 with message_queue := [], outstanding_tasks := s0.outstanding_tasks + 1 - 1 }
      fid m' hf
    exact ⟨hb.1, hb.2.1⟩
  cases ih with
  | none =>
      simp only [process_next, hq]
      exact ⟨Or.inl ⟨m, (hdispatch m).1⟩, (hdispatch m).2⟩
  | some h =>
      rcases hh : h.on_response m sender recipient with e | o
      · simp only [process_next, hq, hh]
        have hb := set_future_exception_spec { s0 with message_queue := [] } fid e hf
        exact ⟨Or.inr ⟨e, hb.1⟩, hb.2.1⟩
      · cases o with
        | dropMessage =>
            simp only [process_next, hq, hh]
            have hb := set_future_exception_spec { s0 with message_queue := [] } fid
              .messageDropped hf
            exact ⟨Or.inr ⟨.messageDropped, hb.1⟩, hb.2.1⟩
        | message m' =>
            simp only [process_next, hq, hh]
            exact ⟨Or.inl ⟨m', (hdispatch m').1⟩, (hdispatch m').2⟩

end Agnext

namespace Agnext

theorem set_future_exception_factory (st : RuntimeState μ) (fid : Nat) (e : PyErr) :
    (set_future_exception st fid e).agent_factory_types = st.agent_factory_types := by
  unfold set_future_exception
  cases h : futureOf st fid with
  | none => rfl
  | some f => cases f <;> rfl

/-- C2: a `send_message` call on an otherwise idle runtime observes exactly
one terminal outcome.  Unless the sender/recipient key check raises
synchronously, the call registers a fresh future; after the scheduler
processes the send envelope and any response envelope it produced, the future
is resolved with a value or rejected with an exception, and exactly one
successful future write has happened in total — for every handler behaviour
and every intervention handler.  When the recipient's agent type is not
registered, the single observed outcome is the `Recipient not found` error. -/
theorem C2_send_exactly_one_outcome (handlers : Handlers μ)
    (ih : Option (InterventionHandler μ)) (st : RuntimeState μ) (message : μ)
    (recipient : AgentId) (sender : Option AgentId)
    (hq : st.message_queue = [])
    (hfresh : futureOf st st.next_future_id = none)
    (hkey : ∀ s, sender = some s → s.key = recipient.key) :
    (run_send handlers ih st message recipient sender).1 = .ok st.next_future_id ∧
    ((run_send handlers ih st message recipient sender).2).future_writes =
      st.future_writes + 1 ∧
    ((∃ v, futureOf (run_send handlers ih st message recipient sender).2
        st.next_future_id = some (.result v)) ∨
     (∃ e, futureOf (run_send handlers ih st message recipient sender).2
        st.next_future_id = some (.exception e))) ∧
    (recipient.type ∉ st.agent_factory_types →
      futureOf (run_send handlers ih st message recipient sender).2 st.next_future_id =
        some (.exception (.exceptionMsg "Recipient not found"))) := by
  have hf1 : futureOf
      { st with futures := st.futures ++ [(st.next_future_id, FutureState.unresolved)],
                next_future_id := st.next_future_id + 1 } st.next_future_id =
      some .unresolved :=
    storeGet_append_new st.futures st.next_future_id _ hfresh
  have htailU : ∀ s2 : RuntimeState μ,
      s2.message_queue = [Envelope.send message sender recipient st.next_future_id] →
      futureOf s2 st.next_future_id = some .unresolved →
      ((∃ v, futureOf (process_next handlers ih (process_next handlers ih s2).1).1
          st.next_future_id = some (.result v)) ∨
       (∃ e, futureOf (process_next handlers ih (process_next handlers ih s2).1).1
          st.next_future_id = some (.exception e))) ∧
      ((process_next handlers ih (process_next handlers ih s2).1).1).future_writes =
        s2.future_writes + 1 := by
    intro s2 h2q h2f
    rcases process_next_send_unresolved handlers ih s2 message sender recipient _ h2q h2f with
      ⟨e, ha, hb, hc⟩ | ⟨resp, ha, hb, hc⟩
    · rw [process_next_empty handlers ih _ hc]
      exact ⟨Or.inr ⟨e, ha⟩, hb⟩
    · obtain ⟨hterm, hw⟩ := process_next_response_unresolved handlers ih
        (process_next handlers ih s2).1 resp recipient sender st.next_future_id hc ha
      exact ⟨hterm, hw.trans (by rw [hb])⟩
  have htailD : ∀ s2 : RuntimeState μ,
      s2.message_queue = [Envelope.send message sender recipient st.next_future_id] →
      futureOf s2 st.next_future_id =
        some (.exception (.exceptionMsg "Recipient not found")) →
      recipient.type ∉ s2.agent_factory_types →
      futureOf (process_next handlers ih (process_next handlers ih s2).1).1
          st.next_future_id = some (.exception (.exceptionMsg "Recipient not found")) ∧
      ((process_next handlers ih (process_next handlers ih s2).1).1).future_writes =
        s2.future_writes := by
    intro s2 h2q h2f h2unreg
    obtain ⟨ha, hb, hc⟩ := process_next_send_done handlers ih s2 message sender recipient
      st.next_future_id _ h2q h2f h2unreg
    rw [process_next_empty handlers ih _ hc]
    exact ⟨ha, hb⟩
  by_cases hreg : recipient.type ∈ st.agent_factory_types
  · have hok : (send_message st message recipient sender).1 = .ok st.next_future_id := by
      cases sender with
      | none => simp [send_message, hreg]
      | some s => simp [send_message, hreg, hkey s rfl]
    have hq2 : ((send_message st message recipient sender).2).message_queue =
        [Envelope.send message sender recipient st.next_future_id] := by
      cases sender with
      | none => simp [send_message, hreg, hq]
      | some s => simp [send_message, hreg, hkey s rfl, hq]
    have hf2 : futureOf (send_message st message recipient sender).2 st.next_future_id =
        some .unresolved := by
      cases sender with
      | none =>
          simp only [send_message, hreg, if_true]
          exact hf1
      | some s =>
          simp [send_message, hreg, hkey s rfl]
          exact hf1
    have hw2 : ((send_message st message recipient sender).2).future_writes =
        st.future_writes := by
      cases sender with
      | none => simp [send_message, hreg]
      | some s => simp [send_message, hreg, hkey s rfl]
    rcases hsm : send_message st message recipient sender with ⟨r, st2⟩
    rw [hsm] at hok hq2 hf2 hw2
    have hr : r = .ok st.next_future_id := hok
    subst hr
    have hw2' : st2.future_writes = st.future_writes := hw2
    obtain ⟨hterm, hwr⟩ := htailU st2 hq2 hf2
    refine ⟨?_, ?_, ?_, ?_⟩
    · simp only [run_send, hsm]
    · simp only [run_send, hsm]
      exact hwr.trans (by rw [hw2'])
    · simp only [run_send, hsm]
      exact hterm
    · intro habs
      exact absurd hreg habs
  · have hsf := set_future_exception_spec
      { st with futures := st.futures ++ [(st.next_future_id, FutureState.unresolved)],
                next_future_id := st.next_future_id + 1 }
      st.next_future_id (.exceptionMsg "Recipient not found") hf1
    have hok : (send_message st message recipient sender).1 = .ok st.next_future_id := by
      cases sender with
      | none => simp [send_message, hreg]
      | some s => simp [send_message, hreg, hkey s rfl]
    have hq2 : ((send_message st message recipient sender).2).message_queue =
        [Envelope.send message sender recipient st.next_future_id] := by
      cases sender with
      | none => simp [send_message, hreg, hq, set_future_exception_queue]
      | some s => simp [send_message, hreg, hkey s rfl, hq, set_future_exception_queue]
    have hf2 : futureOf (send_message st message recipient sender).2 st.next_future_id =
        some (.exception (.exceptionMsg "Recipient not found")) := by
      cases sender with
      | none =>
          simp only [send_message, hreg, if_false]
          exact hsf.1
      | some s =>
          simp [send_message, hreg, hkey s rfl]
          exact hsf.1
    have hw2 : ((send_message st message recipient sender).2).future_writes =
        st.future_writes + 1 := by
      cases sender with
      | none =>
          simp only [send_message, hreg, if_false]
          exact hsf.2.1
      | some s =>
          simp [send_message, hreg, hkey s rfl]
          exact hsf.2.1
    have hfac2 : ((send_message st message recipient sender).2).agent_factory_types =
        st.agent_factory_types := by
      cases sender with
      | none => simp [send_message, hreg, set_future_exception_factory]
      | some s => simp [send_message, hreg, hkey s rfl, set_future_exception_factory]
    rcases hsm : send_message st message recipient sender with ⟨r, st2⟩
    rw [hsm] at hok hq2 hf2 hw2 hfac2
    have hr : r = .ok st.next_future_id := hok
    subst hr
    have hw2' : st2.future_writes = st.future_writes + 1 := hw2
    have hfac2' : st2.agent_factory_types = st.agent_factory_types := hfac2
    obtain ⟨ha, hb⟩ := htailD st2 hq2 hf2 (by rw [hfac2']; exact hreg)
    refine ⟨?_, ?_, ?_, ?_⟩
    · simp only [run_send, hsm]
    · simp only [run_send, hsm]
      exact hb.trans hw2'
    · simp only [run_send, hsm]
      exact Or.inr ⟨.exceptionMsg "Recipient not found", ha⟩
    · intro _
      simp only [run_send, hsm]
      exact ha

theorem C2_witness :
    (run_send okHandlers none emptyRt 3 ⟨"R", "k"⟩ none).1 = .ok 0 ∧
    ((run_send okHandlers none emptyRt 3 ⟨"R", "k"⟩ none).2).future_writes =
      emptyRt.future_writes + 1 ∧
    ((∃ v, futureOf (run_send okHandlers none emptyRt 3 ⟨"R", "k"⟩ none).2 0 =
        some (.result v)) ∨
     (∃ e, futureOf (run_send okHandlers none emptyRt 3 ⟨"R", "k"⟩ none).2 0 =
        some (.exception e))) ∧
    ((⟨"R", "k"⟩ : AgentId).type ∉ emptyRt.agent_factory_types →
      futureOf (run_send okHandlers none emptyRt 3 ⟨"R", "k"⟩ none).2 0 =
        some (.exception (.exceptionMsg "Recipient not found"))) :=
  C2_send_exactly_one_outcome okHandlers none emptyRt 3 ⟨"R", "k"⟩ none rfl rfl
    (fun s h => by cases h)

end Agnext

namespace AutogenCore

theorem dictGet_append_new (l : List (String × α)) (key : String) (v : α)
    (h : dictGet l key = none) : dictGet (l ++ [(key, v)]) key = some v := by
  unfold dictGet at h ⊢
  rcases hf : l.find? (fun p => p.1 == key) with _ | w
  · rw [List.find?_append, hf]
    simp [List.find?_cons]
  · rw [hf] at h
    simp at h

theorem dictGet_dictDel_self (l : List (String × α)) (key : String) :
    dictGet (dictDel l key) key = none := by
  induction l with
  | nil => rfl
  | cons p t ih =>
      unfold dictDel at ih ⊢
      rw [List.filter_cons]
      cases hp : (p.1 == key) with
      | true =>
          have hbne : (p.1 != key) = false := by simp [bne, hp]
          rw [hbne]
          simpa using ih
      | false =>
          have hbne : (p.1 != key) = true := by simp [bne, hp]
          rw [hbne, if_pos rfl]
          unfold dictGet at ih ⊢
          rw [List.find?_cons]
          simp only [hp]
          exact ih

/-- C8: one RPC-over-publish round trip — A calls B with `send_message`, B's
handler returns `R`, the base layer wraps and publishes the response, and the
delivery back to A resolves A's await with exactly `R` (an `RpcNoneResponse`
mapped back to `None`), after which A's pending-request table no longer
contains the request id. -/
theorem C8_rpc_round_trip (A B : BAState μ) (message : Payload μ) (R : Option μ)
    (implA : Except BaseExc Unit) (rid mid : String)
    (hfresh : dictGet A.pending_rpc_requests rid = none) :
    (rpc_round_trip A B message R implA rid mid).2 =
      [Effect.setResult rid (wrapResult R)] ∧
    dictGet ((rpc_round_trip A B message R implA rid mid).1).pending_rpc_requests
      rid = none := by
  have hA1 : dictGet (A.pending_rpc_requests ++ [(rid, FutState.unresolved (μ := μ))]) rid =
      some .unresolved := dictGet_append_new _ _ _ hfresh
  cases R with
  | none =>
      constructor
      · simp [rpc_round_trip, send_message, on_message, rpc_response, is_error_message,
          is_rpc_cancel, is_rpc_response, is_rpc_request, format_rpc_request_topic,
          format_rpc_response_topic, format_error_topic, wrapResult, hA1]
      · simp only [rpc_round_trip, send_message, on_message, rpc_response,
          is_error_message, is_rpc_cancel, is_rpc_response, is_rpc_request,
          format_rpc_request_topic, format_rpc_response_topic, format_error_topic, hA1]
        exact dictGet_dictDel_self _ _
  | some v =>
      constructor
      · simp [rpc_round_trip, send_message, on_message, rpc_response, is_error_message,
          is_rpc_cancel, is_rpc_response, is_rpc_request, format_rpc_request_topic,
          format_rpc_response_topic, format_error_topic, wrapResult, hA1]
      · simp only [rpc_round_trip, send_message, on_message, rpc_response,
          is_error_message, is_rpc_cancel, is_rpc_response, is_rpc_request,
          format_rpc_request_topic, format_rpc_response_topic, format_error_topic, hA1]
        exact dictGet_dictDel_self _ _

theorem C8_witness :
    (rpc_round_trip agentA agentB (.value 1) (some 42) (.ok ()) "r1" "m1").2 =
      [Effect.setResult "r1" (wrapResult (some 42))] ∧
    dictGet ((rpc_round_trip agentA agentB (.value 1) (some 42)
        (.ok ()) "r1" "m1").1).pending_rpc_requests "r1" = none :=
  C8_rpc_round_trip agentA agentB (.value 1) (some 42) (.ok ()) "r1" "m1" rfl

end AutogenCore
